import Mathlib

/-!
Verification of the fast_cut_video_tools clip-export core.

The definitions below are a shallow embedding, over exact rational
arithmetic, of the TypeScript sources:

* `VideoProcessor` (engine bootstrap, FFmpeg command builder, quality
  mapping) from `src/utils/videoProcessor.ts`;
* `createClipSegment` / `canAddToClips` (display-space to source-space
  coordinate transform, clip factory) from `src/hooks/useVideoEditor.ts`;
* `ExportHandler.exportMultipleClips` (sequential batch export with
  abort-on-first-failure) from the export handler module.

JavaScript numbers are modelled as `ℚ`; `Math.round` is modelled as
round-half-up (`⌊x + 1/2⌋`), which is its exact semantics on the
representable range. Asynchronous effects (network fetches, engine
invocations, downloads) are modelled by passing the outcome of each
awaited step (`Except String _`) as an explicit argument.
-/

namespace FastCut

/-- The Math.round function of JavaScript: rounds to the nearest integer, ties toward
positive infinity, i.e. the floor of x + 1/2. -/
def jsRound (q : ℚ) : ℤ := ⌊q + 1 / 2⌋

theorem jsRound_mono {a b : ℚ} (h : a ≤ b) : jsRound a ≤ jsRound b :=
  Int.floor_le_floor (by linarith)

theorem jsRound_intCast (n : ℤ) : jsRound (n : ℚ) = n := by
  unfold jsRound
  rw [Int.floor_eq_iff]
  exact ⟨by linarith, by linarith⟩

/-- The quality-to-CRF mapping from VideoProcessor.qualityToCRF:
maps a quality percentage (documented domain 40-100) to an x264 CRF
value by the linear formula crf = maxCRF - ((quality - 40) / 60) *
(maxCRF - minCRF), then clamps to [minCRF, maxCRF] and rounds
(Math.round(Math.max(minCRF, Math.min(maxCRF, crf)))). -/
def qualityToCRF (quality : ℚ) : ℤ :=
  let minCRF : ℚ := 18
  let maxCRF : ℚ := 28
  let crf := maxCRF - ((quality - 40) / 60) * (maxCRF - minCRF)
  jsRound (max minCRF (min maxCRF crf))

theorem qualityToCRF_eq (q : ℚ) :
    qualityToCRF q = jsRound (max 18 (min 28 (28 - ((q - 40) / 60) * (28 - 18)))) := rfl

theorem jsRound_clamp_lb (x : ℚ) : 18 ≤ jsRound (max 18 (min 28 x)) := by
  have h := jsRound_mono (le_max_left (18 : ℚ) (min 28 x))
  have h18 : jsRound ((18 : ℤ) : ℚ) = 18 := jsRound_intCast 18
  push_cast at h18
  omega

theorem jsRound_clamp_ub (x : ℚ) : jsRound (max 18 (min 28 x)) ≤ 28 := by
  have hle : max (18 : ℚ) (min 28 x) ≤ 28 :=
    max_le (by norm_num) (min_le_left _ _)
  have h := jsRound_mono hle
  have h28 : jsRound ((28 : ℤ) : ℚ) = 28 := jsRound_intCast 28
  push_cast at h28
  omega

/-- C1: for every quality value in [40,100], the CRF produced by
qualityToCRF equals the linear formula 28 - ((q-40)/60)*(28-18) rounded
(the clamp to [18,28] is a no-op on the domain, so the result also lies
in [18,28]); in particular 100 maps to 18, 70 to 23, 40 to 28, and the
parameter is non-increasing as quality increases over the domain. -/
theorem qualityToCRF_spec :
    (∀ q : ℚ, 40 ≤ q → q ≤ 100 →
      qualityToCRF q = jsRound (28 - ((q - 40) / 60) * (28 - 18)) ∧
      18 ≤ qualityToCRF q ∧ qualityToCRF q ≤ 28) ∧
    qualityToCRF 100 = 18 ∧ qualityToCRF 70 = 23 ∧ qualityToCRF 40 = 28 ∧
    (∀ q₁ q₂ : ℚ, 40 ≤ q₁ → q₁ ≤ q₂ → q₂ ≤ 100 →
      qualityToCRF q₂ ≤ qualityToCRF q₁) := by
  have hclamp : ∀ q : ℚ, 40 ≤ q → q ≤ 100 →
      max (18 : ℚ) (min 28 (28 - ((q - 40) / 60) * (28 - 18))) =
        28 - ((q - 40) / 60) * (28 - 18) := by
    intro q h1 h2
    have hle : 28 - ((q - 40) / 60) * ((28 : ℚ) - 18) ≤ 28 := by nlinarith
    have hge : (18 : ℚ) ≤ 28 - ((q - 40) / 60) * (28 - 18) := by nlinarith
    rw [min_eq_right hle, max_eq_right hge]
  refine ⟨?_, ?_, ?_, ?_, ?_⟩
  · intro q h1 h2
    refine ⟨?_, jsRound_clamp_lb _, jsRound_clamp_ub _⟩
    rw [qualityToCRF_eq, hclamp q h1 h2]
  · rw [qualityToCRF_eq]; norm_num [jsRound, min_def, max_def]
  · rw [qualityToCRF_eq]; norm_num [jsRound, min_def, max_def]
  · rw [qualityToCRF_eq]; norm_num [jsRound, min_def, max_def]
  · intro q₁ q₂ h1 h2 h3
    rw [qualityToCRF_eq, qualityToCRF_eq]
    apply jsRound_mono
    apply max_le_max le_rfl
    apply min_le_min le_rfl
    nlinarith

theorem qualityToCRF_spec_witness :
    ((40 : ℚ) ≤ 70 ∧ (70 : ℚ) ≤ 100 ∧
      qualityToCRF 70 = jsRound (28 - ((70 - 40) / 60) * (28 - 18)) ∧
      18 ≤ qualityToCRF 70 ∧ qualityToCRF 70 ≤ 28) ∧
    qualityToCRF 100 ≤ qualityToCRF 40 := by
  refine ⟨⟨by norm_num, by norm_num, ?_⟩, ?_⟩
  · exact qualityToCRF_spec.1 70 (by norm_num) (by norm_num)
  · exact qualityToCRF_spec.2.2.2.2 40 100 (by norm_num) (by norm_num) (by norm_num)

/-- C10: the quality-to-CRF conversion is a total function on the
rationals: for every quality input, including values outside [40,100],
it returns the clamped-then-rounded value of the linear formula, and
the result always lies in [18,28]. -/
theorem qualityToCRF_total_range : ∀ q : ℚ,
    qualityToCRF q = jsRound (max 18 (min 28 (28 - ((q - 40) / 60) * (28 - 18)))) ∧
    18 ≤ qualityToCRF q ∧ qualityToCRF q ≤ 28 := by
  intro q
  exact ⟨qualityToCRF_eq q, jsRound_clamp_lb _, jsRound_clamp_ub _⟩

/-- A rectangle {x, y, width, height}, in display or source space. -/
structure Rect where
  x : ℚ
  y : ℚ
  width : ℚ
  height : ℚ
  deriving DecidableEq

/-- Native pixel dimensions of a media source. -/
structure Dimensions where
  width : ℚ
  height : ℚ
  deriving DecidableEq

/-- The bounding rectangle of the container (only width/height are read by
createClipSegment). -/
structure DomRect where
  width : ℚ
  height : ℚ
  deriving DecidableEq

/-- The kind of a loaded media file. -/
inductive MediaType
  | video
  | gif
  | image
  deriving DecidableEq

/-- The fields of MediaFile read by createClipSegment. -/
structure MediaFile where
  id : String
  url : String
  type : MediaType
  dimensions : Dimensions
  deriving DecidableEq

/-- A selected time range {start, end} in seconds; the `end` field is
named `endTime` because `end` is a reserved word here. -/
structure TimeRange where
  start : ℚ
  endTime : ℚ
  deriving DecidableEq

/-- A clip segment as produced by createClipSegment (the createdAt
timestamp is omitted: no claim mentions it). -/
structure ClipSegment where
  id : String
  mediaId : String
  startTime : ℚ
  endTime : ℚ
  cropArea : Rect
  thumbnail : String
  deriving DecidableEq

/-- The aspect-fit placement computed inside createClipSegment:
displayed size of the source within the container and the centering
(letterbox/pillarbox) offsets. -/
structure Fit where
  displayWidth : ℚ
  displayHeight : ℚ
  offsetX : ℚ
  offsetY : ℚ
  deriving DecidableEq

/-- The aspect-fit computation of createClipSegment (useVideoEditor.ts
lines 190-208): if the video is wider than the container
(videoAspect > containerAspect) the width governs (letterbox),
otherwise the height governs (pillarbox). -/
def aspectFit (dims : Dimensions) (containerRect : DomRect) : Fit :=
  let containerAspect := containerRect.width / containerRect.height
  let videoAspect := dims.width / dims.height
  if videoAspect > containerAspect then
    { displayWidth := containerRect.width
      displayHeight := containerRect.width / videoAspect
      offsetX := 0
      offsetY := (containerRect.height - containerRect.width / videoAspect) / 2 }
  else
    { displayWidth := containerRect.height * videoAspect
      displayHeight := containerRect.height
      offsetX := (containerRect.width - containerRect.height * videoAspect) / 2
      offsetY := 0 }

/-- The raw display-to-source transform of createClipSegment (lines
210-219): subtract the offsets, multiply by the scale factors, clamp
the position at 0 and the dimensions at the source dimensions. -/
def rawCrop (dims : Dimensions) (fit : Fit) (crop : Rect) : Rect :=
  let scaleX := dims.width / fit.displayWidth
  let scaleY := dims.height / fit.displayHeight
  { x := max 0 ((crop.x - fit.offsetX) * scaleX)
    y := max 0 ((crop.y - fit.offsetY) * scaleY)
    width := min (crop.width * scaleX) dims.width
    height := min (crop.height * scaleY) dims.height }

/-- First boundary correction of createClipSegment (lines 222-224):
if x + width overruns the source width, shrink the width. -/
def clampWidth (dims : Dimensions) (r : Rect) : Rect :=
  if r.x + r.width > dims.width then { r with width := dims.width - r.x } else r

/-- Second boundary correction of createClipSegment (lines 225-227):
if y + height overruns the source height, shrink the height. -/
def clampHeight (dims : Dimensions) (r : Rect) : Rect :=
  if r.y + r.height > dims.height then { r with height := dims.height - r.y } else r

/-- The full display-space to source-space transform applied by
createClipSegment when a crop selection and a container rectangle are
both present (lines 189-228). -/
def toSourceSpace (dims : Dimensions) (containerRect : DomRect) (crop : Rect) : Rect :=
  clampHeight dims (clampWidth dims (rawCrop dims (aspectFit dims containerRect) crop))

/-- The final source-space crop area stored on the segment: the
transformed selection when both a selection and a container rectangle
exist, else the full source frame (lines 181-228). -/
def computeFinalCropArea (media : MediaFile) (cropArea : Option Rect)
    (containerRect : Option DomRect) : Rect :=
  match cropArea, containerRect with
  | some crop, some cr => toSourceSpace media.dimensions cr crop
  | _, _ => { x := 0, y := 0, width := media.dimensions.width, height := media.dimensions.height }

/-- The selected duration in seconds (useVideoEditor.ts line 162). -/
def getSelectedDuration (timeRange : TimeRange) : ℚ :=
  timeRange.endTime - timeRange.start

/-- canAddToClips (useVideoEditor.ts lines 173-175): the selection is
accepted only when it lasts strictly more than 0.1 seconds. -/
def canAddToClips (timeRange : TimeRange) : Bool :=
  decide (getSelectedDuration timeRange > 0.1)

/-- createClipSegment (useVideoEditor.ts lines 178-270). The time
range and crop selection held in the hook state are explicit
arguments; `freshId` stands for the generated random id and `thumbGen`
for the outcome of the awaited thumbnail generation (`Except.error`
when generateCroppedThumbnail / generateVideoThumbnail rejects). On a
too-short selection the function returns none; a failed thumbnail
generation is caught and the url of the media itself is used instead. -/
def createClipSegment (media : MediaFile) (timeRange : TimeRange)
    (cropArea : Option Rect) (containerRect : Option DomRect)
    (freshId : String) (thumbGen : Except String String) : Option ClipSegment :=
  if !canAddToClips timeRange then none
  else
    let finalCropArea := computeFinalCropArea media cropArea containerRect
    let thumbnail :=
      if media.type = MediaType.video ∨ media.type = MediaType.gif then
        match thumbGen with
        | Except.ok t => t
        | Except.error _ => media.url
      else media.url
    some { id := freshId, mediaId := media.id, startTime := timeRange.start,
           endTime := timeRange.endTime, cropArea := finalCropArea,
           thumbnail := thumbnail }

/-- Containment of a rectangle in a frame of the given dimensions. -/
def rectWithin (r : Rect) (dims : Dimensions) : Prop :=
  0 ≤ r.x ∧ 0 ≤ r.y ∧ r.x + r.width ≤ dims.width ∧ r.y + r.height ≤ dims.height

instance (r : Rect) (dims : Dimensions) : Decidable (rectWithin r dims) := by
  unfold rectWithin; infer_instance

theorem clampWidth_x (dims : Dimensions) (r : Rect) : (clampWidth dims r).x = r.x := by
  unfold clampWidth; split <;> rfl

theorem clampWidth_y (dims : Dimensions) (r : Rect) : (clampWidth dims r).y = r.y := by
  unfold clampWidth; split <;> rfl

theorem clampWidth_height (dims : Dimensions) (r : Rect) :
    (clampWidth dims r).height = r.height := by
  unfold clampWidth; split <;> rfl

theorem clampHeight_x (dims : Dimensions) (r : Rect) : (clampHeight dims r).x = r.x := by
  unfold clampHeight; split <;> rfl

theorem clampHeight_y (dims : Dimensions) (r : Rect) : (clampHeight dims r).y = r.y := by
  unfold clampHeight; split <;> rfl

theorem clampHeight_width (dims : Dimensions) (r : Rect) :
    (clampHeight dims r).width = r.width := by
  unfold clampHeight; split <;> rfl

theorem clampWidth_bound (dims : Dimensions) (r : Rect) :
    (clampWidth dims r).x + (clampWidth dims r).width ≤ dims.width := by
  unfold clampWidth
  split
  · simp
  · next h => linarith [not_lt.mp h]

theorem clampHeight_bound (dims : Dimensions) (r : Rect) :
    (clampHeight dims r).y + (clampHeight dims r).height ≤ dims.height := by
  unfold clampHeight
  split
  · simp
  · next h => linarith [not_lt.mp h]

theorem rawCrop_x_nonneg (dims : Dimensions) (fit : Fit) (crop : Rect) :
    0 ≤ (rawCrop dims fit crop).x := le_max_left _ _

theorem rawCrop_y_nonneg (dims : Dimensions) (fit : Fit) (crop : Rect) :
    0 ≤ (rawCrop dims fit crop).y := le_max_left _ _

/-- The transformed crop always satisfies the containment invariant,
whatever the inputs: the position clamps at 0 and the two boundary
corrections cap x+width and y+height at the source dimensions. -/
theorem toSourceSpace_within (dims : Dimensions) (cr : DomRect) (crop : Rect) :
    rectWithin (toSourceSpace dims cr crop) dims := by
  unfold toSourceSpace rectWithin
  refine ⟨?_, ?_, ?_, ?_⟩
  · rw [clampHeight_x, clampWidth_x]
    exact rawCrop_x_nonneg _ _ _
  · rw [clampHeight_y, clampWidth_y]
    exact rawCrop_y_nonneg _ _ _
  · rw [clampHeight_x, clampHeight_width]
    exact clampWidth_bound _ _
  · exact clampHeight_bound _ _

/-- C5: every clip segment produced by createClipSegment carries a
source-space crop rectangle with 0 ≤ x, 0 ≤ y, x + width ≤ sourceWidth
and y + height ≤ sourceHeight. -/
theorem createClipSegment_containment (media : MediaFile) (timeRange : TimeRange)
    (cropArea : Option Rect) (containerRect : Option DomRect)
    (freshId : String) (thumbGen : Except String String) (seg : ClipSegment)
    (hW : 0 < media.dimensions.width) (hH : 0 < media.dimensions.height)
    (hseg : createClipSegment media timeRange cropArea containerRect freshId thumbGen
      = some seg) :
    rectWithin seg.cropArea media.dimensions := by
  have hin : rectWithin (computeFinalCropArea media cropArea containerRect)
      media.dimensions := by
    unfold computeFinalCropArea
    match cropArea, containerRect with
    | some crop, some cr => exact toSourceSpace_within _ _ _
    | some crop, none => exact ⟨le_refl 0, le_refl 0, by simp, by simp⟩
    | none, some cr => exact ⟨le_refl 0, le_refl 0, by simp, by simp⟩
    | none, none => exact ⟨le_refl 0, le_refl 0, by simp, by simp⟩
  unfold createClipSegment at hseg
  split at hseg
  · exact absurd hseg (by simp)
  · rw [Option.some_inj] at hseg
    rw [← hseg]
    exact hin

theorem createClipSegment_containment_witness :
    rectWithin (Rect.mk 240 60 720 960) (Dimensions.mk 1920 1080) := by
  apply createClipSegment_containment
    (MediaFile.mk "m" "u" MediaType.video (Dimensions.mk 1920 1080))
    (TimeRange.mk 0 5) (some (Rect.mk 100 200 300 400)) (some (DomRect.mk 800 800))
    "c" (Except.ok "t")
    (ClipSegment.mk "c" "m" 0 5 (Rect.mk 240 60 720 960) "t")
    (by norm_num) (by norm_num)
  unfold createClipSegment canAddToClips getSelectedDuration computeFinalCropArea
    toSourceSpace aspectFit rawCrop clampWidth clampHeight
  norm_num

/-- C8: a selection whose duration is below the 0.1 second minimum is
rejected: createClipSegment produces no clip segment. -/
theorem createClipSegment_rejects_short (media : MediaFile) (timeRange : TimeRange)
    (cropArea : Option Rect) (containerRect : Option DomRect)
    (freshId : String) (thumbGen : Except String String)
    (h : timeRange.endTime - timeRange.start < 0.1) :
    createClipSegment media timeRange cropArea containerRect freshId thumbGen = none := by
  have hfalse : canAddToClips timeRange = false := by
    simp only [canAddToClips, getSelectedDuration, decide_eq_false_iff_not, not_lt]
    linarith
  unfold createClipSegment
  rw [hfalse]
  rfl

theorem createClipSegment_rejects_short_witness :
    ((TimeRange.mk 0 (1/20)).endTime - (TimeRange.mk 0 (1/20)).start < 0.1) ∧
    createClipSegment (MediaFile.mk "m" "u" MediaType.video (Dimensions.mk 1920 1080))
      (TimeRange.mk 0 (1/20)) none none "c" (Except.ok "t") = none :=
  ⟨by norm_num,
   createClipSegment_rejects_short _ _ none none "c" (Except.ok "t") (by norm_num)⟩

/-- C9: when thumbnail generation fails, the failure is absorbed:
createClipSegment still produces the clip segment, with the url of
the media itself as the fallback thumbnail in place of the generated one. -/
theorem createClipSegment_thumbnail_fallback (media : MediaFile) (timeRange : TimeRange)
    (cropArea : Option Rect) (containerRect : Option DomRect)
    (freshId : String) (e : String)
    (hdur : (0.1 : ℚ) < timeRange.endTime - timeRange.start) :
    createClipSegment media timeRange cropArea containerRect freshId (Except.error e) =
      some { id := freshId, mediaId := media.id, startTime := timeRange.start,
             endTime := timeRange.endTime,
             cropArea := computeFinalCropArea media cropArea containerRect,
             thumbnail := media.url } := by
  have htrue : canAddToClips timeRange = true := by
    simp only [canAddToClips, getSelectedDuration, decide_eq_true_eq]
    linarith
  unfold createClipSegment
  rw [htrue]
  simp only [Bool.not_true, Bool.false_eq_true, if_false]
  split
  · rfl
  · rfl

theorem createClipSegment_thumbnail_fallback_witness :
    ((0.1 : ℚ) < (TimeRange.mk 0 5).endTime - (TimeRange.mk 0 5).start) ∧
    createClipSegment (MediaFile.mk "m" "u" MediaType.video (Dimensions.mk 1920 1080))
        (TimeRange.mk 0 5) none none "c" (Except.error "thumb failed") =
      some { id := "c", mediaId := "m", startTime := 0, endTime := 5,
             cropArea := computeFinalCropArea
               (MediaFile.mk "m" "u" MediaType.video (Dimensions.mk 1920 1080)) none none,
             thumbnail := "u" } :=
  ⟨by norm_num,
   createClipSegment_thumbnail_fallback _ _ none none "c" "thumb failed" (by norm_num)⟩

/-- A display-space selection that lies inside the container but
entirely within the letterbox/pillarbox gap: on one axis it ends
before the displayed source starts, or starts after it ends. This
formalises the hypothesis of the edge case in the spec; it is not code. -/
def inLetterboxGap (dims : Dimensions) (cr : DomRect) (sel : Rect) : Prop :=
  (0 ≤ sel.x ∧ sel.x + sel.width ≤ cr.width ∧
   0 ≤ sel.y ∧ sel.y + sel.height ≤ cr.height) ∧
  (sel.y + sel.height ≤ (aspectFit dims cr).offsetY ∨
   (aspectFit dims cr).offsetY + (aspectFit dims cr).displayHeight ≤ sel.y ∨
   sel.x + sel.width ≤ (aspectFit dims cr).offsetX ∨
   (aspectFit dims cr).offsetX + (aspectFit dims cr).displayWidth ≤ sel.x)

/-- C3 counterexample: a 100x100 selection in the top letterbox gap of
an 800x800 container showing a 1920x1080 source (gap height 175) is
mapped by createClipSegment to the source-space rectangle
{0, 0, 240, 240}, which has positive area: the code clamps the
position to the source edge but keeps the scaled dimensions, so the
claimed zero-area "no valid crop" signal is not produced. -/
theorem createClipSegment_gap_counterexample :
    inLetterboxGap (Dimensions.mk 1920 1080) (DomRect.mk 800 800) (Rect.mk 0 0 100 100) ∧
    createClipSegment (MediaFile.mk "m" "u" MediaType.video (Dimensions.mk 1920 1080))
        (TimeRange.mk 0 5) (some (Rect.mk 0 0 100 100)) (some (DomRect.mk 800 800))
        "c" (Except.ok "t")
      = some (ClipSegment.mk "c" "m" 0 5 (Rect.mk 0 0 240 240) "t") ∧
    ¬ ((Rect.mk 0 0 240 240).width * (Rect.mk 0 0 240 240).height = 0) := by
  refine ⟨?_, ?_, by norm_num⟩
  · unfold inLetterboxGap aspectFit
    norm_num
  · unfold createClipSegment canAddToClips getSelectedDuration computeFinalCropArea
      toSourceSpace aspectFit rawCrop clampWidth clampHeight
    norm_num

/-- C3 amended: a display-space selection lying entirely within the
letterbox/pillarbox gap is not guaranteed a zero-area result — there
is no "no valid crop" signal. The selection is pushed through the same
clamp arithmetic as any other: the result always satisfies the
containment inequalities (first conjunct), but its area depends on
which side of the gap the selection sits: for the running 1920x1080
source in an 800x800 container (displayed band y in [175, 625]), the
top-gap selection {0,0,100,100} keeps its positive scaled dimensions
and maps to {0,0,240,240}; the selection {0,625,100,100} at the far
boundary maps to {0,1080,240,0} with height exactly 0; and the
bottom-gap selection {0,700,100,100} maps to {0,1260,240,-180} with
negative height. -/
theorem createClipSegment_gap_amended :
    (∀ (media : MediaFile) (timeRange : TimeRange) (sel : Rect) (cr : DomRect)
       (freshId : String) (thumbGen : Except String String) (seg : ClipSegment),
      0 < media.dimensions.width → 0 < media.dimensions.height →
      inLetterboxGap media.dimensions cr sel →
      createClipSegment media timeRange (some sel) (some cr) freshId thumbGen
        = some seg →
      rectWithin seg.cropArea media.dimensions) ∧
    (inLetterboxGap (Dimensions.mk 1920 1080) (DomRect.mk 800 800) (Rect.mk 0 0 100 100) ∧
      toSourceSpace (Dimensions.mk 1920 1080) (DomRect.mk 800 800) (Rect.mk 0 0 100 100)
        = Rect.mk 0 0 240 240) ∧
    (inLetterboxGap (Dimensions.mk 1920 1080) (DomRect.mk 800 800) (Rect.mk 0 625 100 100) ∧
      toSourceSpace (Dimensions.mk 1920 1080) (DomRect.mk 800 800) (Rect.mk 0 625 100 100)
        = Rect.mk 0 1080 240 0) ∧
    (inLetterboxGap (Dimensions.mk 1920 1080) (DomRect.mk 800 800) (Rect.mk 0 700 100 100) ∧
      toSourceSpace (Dimensions.mk 1920 1080) (DomRect.mk 800 800) (Rect.mk 0 700 100 100)
        = Rect.mk 0 1260 240 (-180)) := by
  refine ⟨?_, ⟨?_, ?_⟩, ⟨?_, ?_⟩, ⟨?_, ?_⟩⟩
  · intro media timeRange sel cr freshId thumbGen seg hW hH hgap hseg
    have hcrop : seg.cropArea = toSourceSpace media.dimensions cr sel := by
      unfold createClipSegment at hseg
      split at hseg
      · exact absurd hseg (by simp)
      · rw [Option.some_inj] at hseg
        rw [← hseg]
        rfl
    rw [hcrop]
    exact toSourceSpace_within _ _ _
  · unfold inLetterboxGap aspectFit
    norm_num
  · unfold toSourceSpace aspectFit rawCrop clampWidth clampHeight
    norm_num
  · unfold inLetterboxGap aspectFit
    norm_num
  · unfold toSourceSpace aspectFit rawCrop clampWidth clampHeight
    norm_num
  · unfold inLetterboxGap aspectFit
    norm_num
  · unfold toSourceSpace aspectFit rawCrop clampWidth clampHeight
    norm_num

theorem createClipSegment_gap_amended_witness :
    rectWithin (ClipSegment.mk "c" "m" 0 5 (Rect.mk 0 0 240 240) "t").cropArea
      (MediaFile.mk "m" "u" MediaType.video (Dimensions.mk 1920 1080)).dimensions :=
  createClipSegment_gap_amended.1
    (MediaFile.mk "m" "u" MediaType.video (Dimensions.mk 1920 1080))
    (TimeRange.mk 0 5) (Rect.mk 0 0 100 100) (DomRect.mk 800 800)
    "c" (Except.ok "t")
    (ClipSegment.mk "c" "m" 0 5 (Rect.mk 0 0 240 240) "t")
    (by norm_num) (by norm_num)
    (by unfold inLetterboxGap aspectFit; norm_num)
    (by unfold createClipSegment canAddToClips getSelectedDuration computeFinalCropArea
          toSourceSpace aspectFit rawCrop clampWidth clampHeight
        norm_num)

/-- The ordered CDN fallback sources configured in
VideoProcessor.initialize (src lines 36-40). -/
def cdnSources : List String :=
  ["https://unpkg.com/@ffmpeg/core@0.12.6/dist/esm",
   "https://cdn.jsdelivr.net/npm/@ffmpeg/core@0.12.6/dist/esm",
   "https://unpkg.com/@ffmpeg/core-mt@0.12.6/dist/esm"]

/-- The fallback loop of VideoProcessor.initialize (lines 42-67): try
each source in order; a per-source failure is logged and skipped; the
first success breaks the loop. `attempts` lists the outcome of each
fetch-and-load attempt of each source, in source order. Returns
whether any attempt succeeded (the loadSuccess flag of the code). -/
def loadAttempts : List (Except String Unit) → Bool
  | [] => false
  | Except.ok _ :: _ => true
  | Except.error _ :: rest => loadAttempts rest

/-- VideoProcessor.initialize (lines 16-79), modelling the engine
bootstrap: an already-loaded instance returns immediately; otherwise
the fallback loop runs, and if no source succeeded the code throws
Error("所有CDN源都加载失败"), which the outer catch rewraps into
Error("FFmpeg初始化失败: " + message + "，请检查网络连接或尝试刷新页面").
The per-source errors are only passed to console.warn; they are not
collected and not attached to the thrown error. -/
def engineInit (isLoaded : Bool) (attempts : List (Except String Unit)) :
    Except String Unit :=
  if isLoaded then Except.ok ()
  else if loadAttempts attempts then Except.ok ()
  else Except.error ("FFmpeg初始化失败: " ++ "所有CDN源都加载失败" ++
    "，请检查网络连接或尝试刷新页面")

/-- C4 counterexample: when every source fails, the raised failure is
the fixed wrapped message and is identical for different per-source
error lists of different lengths — so it cannot carry one error per
attempted source; the claim that the failure carries the list of
per-source errors (rather than a bare message) is false of the code. -/
theorem engineInit_bare_message :
    engineInit false [Except.error "errA", Except.error "errB", Except.error "errC"]
      = Except.error "FFmpeg初始化失败: 所有CDN源都加载失败，请检查网络连接或尝试刷新页面" ∧
    engineInit false [Except.error "errA", Except.error "errB", Except.error "errC"]
      = engineInit false [Except.error "otherD", Except.error "otherE"] :=
  ⟨rfl, rfl⟩

theorem loadAttempts_all_error (attempts : List (Except String Unit))
    (h : ∀ a ∈ attempts, ∃ err, a = Except.error err) :
    loadAttempts attempts = false := by
  induction attempts with
  | nil => rfl
  | cons a rest ih =>
      obtain ⟨err, rfl⟩ := h a (List.mem_cons_self a rest)
      exact ih (fun b hb => h b (List.mem_cons_of_mem _ hb))

/-- C4 amended: when every configured fallback source fails,
initialization raises a failure carrying only the fixed message
"FFmpeg初始化失败: 所有CDN源都加载失败，请检查网络连接或尝试刷新页面",
independent of the individual per-source errors, which are logged but
not attached to the raised error. -/
theorem engineInit_all_fail (attempts : List (Except String Unit))
    (h : ∀ a ∈ attempts, ∃ err, a = Except.error err) :
    engineInit false attempts =
      Except.error ("FFmpeg初始化失败: " ++ "所有CDN源都加载失败" ++
        "，请检查网络连接或尝试刷新页面") := by
  unfold engineInit
  rw [loadAttempts_all_error attempts h]
  rfl

theorem engineInit_all_fail_witness :
    engineInit false [Except.error "network timeout"] =
      Except.error ("FFmpeg初始化失败: " ++ "所有CDN源都加载失败" ++
        "，请检查网络连接或尝试刷新页面") := by
  apply engineInit_all_fail
  intro a ha
  rw [List.mem_singleton] at ha
  exact ⟨"network timeout", ha⟩

/-- The status field of the progress reports of ExportHandler. -/
inductive BatchStatus
  | preparing
  | processing
  | completed
  | error
  deriving DecidableEq

/-- The observable outcome of one run of
ExportHandler.exportMultipleClips: which clips were handed to
videoProcessor.processVideoClip (in order), which output files were
handed to downloadFile (in order), the final reported status with its
message, and the value returned/thrown to the caller. -/
structure BatchRun where
  transcoded : List ℕ
  downloaded : List ℕ
  finalStatus : BatchStatus
  reportedMessage : String
  result : Except String Unit

/-- The per-clip loop of exportMultipleClips (lines 469-501): clip i
is transcoded; if its transcode throws, the loop stops immediately
(the throw escapes the for-loop); otherwise its output is downloaded
and the loop proceeds to clip i+1. `outcomes` lists the processVideoClip
outcome of each clip; the download hand-off itself is modelled as
succeeding. Returns (transcoded indices, downloaded indices, loop
result). -/
def batchLoop : List (Except String Unit) → ℕ → List ℕ × List ℕ × Except String Unit
  | [], _ => ([], [], Except.ok ())
  | Except.error e :: _, i => ([i], [], Except.error e)
  | Except.ok _ :: rest, i =>
      let r := batchLoop rest (i + 1)
      (i :: r.1, i :: r.2.1, r.2.2)

/-- The loop plus the surrounding try/catch of exportMultipleClips: on
success a completed status is reported; on any throw the catch reports
status "error" with message "批量导出失败: " + error.message and
rethrows the error unchanged to the caller. -/
def runLoop (outcomes : List (Except String Unit)) : BatchRun :=
  match batchLoop outcomes 0 with
  | (ts, ds, Except.ok _) =>
      { transcoded := ts, downloaded := ds, finalStatus := BatchStatus.completed,
        reportedMessage := "批量导出完成！共处理 " ++ toString outcomes.length ++ " 个片段",
        result := Except.ok () }
  | (ts, ds, Except.error e) =>
      { transcoded := ts, downloaded := ds, finalStatus := BatchStatus.error,
        reportedMessage := "批量导出失败: " ++ e, result := Except.error e }

/-- ExportHandler.exportMultipleClips (lines 440-523). `isInit` is the
isFFmpegInitialized flag of the handler and `initRes` the outcome of
initializeFFmpeg when it has to run; a failed initialization also
lands in the catch, before any clip is processed. -/
def exportMultipleClips (isInit : Bool) (initRes : Except String Unit)
    (outcomes : List (Except String Unit)) : BatchRun :=
  if !isInit then
    match initRes with
    | Except.error e =>
        { transcoded := [], downloaded := [], finalStatus := BatchStatus.error,
          reportedMessage := "批量导出失败: " ++ e, result := Except.error e }
    | Except.ok _ => runLoop outcomes
  else runLoop outcomes

theorem batchLoop_spec (n : ℕ) (e : String) (post : List (Except String Unit)) :
    ∀ i, batchLoop (List.replicate n (Except.ok ()) ++ Except.error e :: post) i =
      (List.range' i (n + 1), List.range' i n, Except.error e) := by
  induction n with
  | zero => intro i; rfl
  | succ n ih =>
      intro i
      have h : List.replicate (n + 1) (Except.ok ()) ++ Except.error e :: post
          = Except.ok () :: (List.replicate n (Except.ok ()) ++ Except.error e :: post) := by
        rw [List.replicate_succ, List.cons_append]
      rw [h]
      show (i :: (batchLoop (List.replicate n (Except.ok ()) ++ Except.error e :: post)
              (i + 1)).1,
            i :: (batchLoop (List.replicate n (Except.ok ()) ++ Except.error e :: post)
              (i + 1)).2.1,
            (batchLoop (List.replicate n (Except.ok ()) ++ Except.error e :: post)
              (i + 1)).2.2) = _
      rw [ih (i + 1)]
      simp [List.range'_succ]

/-- C2: in a batch where the first n clips transcode successfully and
the transcode of clip n throws error e, exportMultipleClips transcodes
exactly clips 0..n in order (the clips after the failing one are never
transcoded), downloads exactly the n outputs produced before the
failure, reports status "error" with the wrapped message, and
propagates the error e unchanged to the caller. -/
theorem exportMultipleClips_abort (n : ℕ) (e : String)
    (post : List (Except String Unit)) :
    exportMultipleClips true (Except.ok ())
        (List.replicate n (Except.ok ()) ++ Except.error e :: post) =
      { transcoded := List.range (n + 1), downloaded := List.range n,
        finalStatus := BatchStatus.error, reportedMessage := "批量导出失败: " ++ e,
        result := Except.error e } := by
  unfold exportMultipleClips
  simp only [Bool.not_true, Bool.false_eq_true, if_false]
  unfold runLoop
  rw [batchLoop_spec n e post 0, List.range_eq_range', List.range_eq_range']

/-- The output format requested in ExportSettings. -/
inductive Format
  | mp4
  | gif
  deriving DecidableEq

/-- ExportSettings as consumed by buildFFmpegCommand. -/
structure ExportSettings where
  format : Format
  quality : ℚ
  fps : Option ℚ
  deriving DecidableEq

/-- The JavaScript idiom a || b for an optional numeric a: undefined and 0
are falsy and yield the default. Models `settings.fps || 15`. -/
def jsOr (v : Option ℚ) (d : ℚ) : ℚ :=
  match v with
  | none => d
  | some x => if x = 0 then d else x

/-- One link of an FFmpeg filter chain, as assembled textually by
buildFFmpegCommand; the [x];[x][1:v] stream labels of the gif filter
are implicit in the chain order (paletteuse consumes input 1, the
generated palette). -/
inductive Filter
  | crop (w h x y : ℤ)
  | fps (rate : ℚ)
  | scale (w h : ℤ) (flags : String)
  | palettegen
  | paletteuse
  deriving DecidableEq

/-- One token of the assembled FFmpeg argument list: a literal string,
a number rendered with toString, or a filter-chain argument. -/
inductive Tok
  | str (s : String)
  | num (q : ℚ)
  | filter (chain : List Filter)
  deriving DecidableEq

/-- The crop filter string crop=w:h:x:y with each component passed
through Math.round (lines 149). -/
def cropFilterOf (c : Rect) : Filter :=
  Filter.crop (jsRound c.width) (jsRound c.height) (jsRound c.x) (jsRound c.y)

/-- VideoProcessor.buildFFmpegCommand (lines 136-183): input, trim
(-ss start, -t duration), then per-format arguments — for mp4 the crop
filter, libx264 with the fast preset, the mapped CRF and aac 128k
audio; for gif a palette-generation pass (-vf crop,fps,scale,
palettegen written to palette.png) followed by a palette-consuming
pass (-filter_complex crop,fps,scale,paletteuse with palette.png as
second input) looped infinitely — and finally the output file. -/
def buildFFmpegCommand (inputFile outputFile : String) (clip : ClipSegment)
    (settings : ExportSettings) : List Tok :=
  let base := [Tok.str "-i", Tok.str inputFile,
               Tok.str "-ss", Tok.num clip.startTime,
               Tok.str "-t", Tok.num (clip.endTime - clip.startTime)]
  let cropFilter := cropFilterOf clip.cropArea
  let formatArgs :=
    match settings.format with
    | Format.mp4 =>
        [Tok.str "-vf", Tok.filter [cropFilter],
         Tok.str "-c:v", Tok.str "libx264",
         Tok.str "-preset", Tok.str "fast",
         Tok.str "-crf", Tok.num ((qualityToCRF settings.quality : ℤ) : ℚ),
         Tok.str "-c:a", Tok.str "aac",
         Tok.str "-b:a", Tok.str "128k"]
    | Format.gif =>
        let fps := jsOr settings.fps 15
        let paletteFilter := [cropFilter, Filter.fps fps,
                              Filter.scale 320 (-1) "lanczos", Filter.palettegen]
        let gifFilter := [cropFilter, Filter.fps fps,
                          Filter.scale 320 (-1) "lanczos", Filter.paletteuse]
        [Tok.str "-vf", Tok.filter paletteFilter,
         Tok.str "-y", Tok.str "palette.png",
         Tok.str "-i", Tok.str "palette.png",
         Tok.str "-filter_complex", Tok.filter gifFilter,
         Tok.str "-loop", Tok.str "0"]
  base ++ formatArgs ++ [Tok.str outputFile]

/-- C6: for every clip and settings, the built command contains the
trim arguments -ss startTime -t (endTime - startTime) and a filter
argument whose chain contains the crop filter with the crop
width, height, x and y each rounded (Math.round) to the nearest
integer. -/
theorem buildFFmpegCommand_trim_crop (inputFile outputFile : String)
    (clip : ClipSegment) (settings : ExportSettings) :
    (∃ pre post, buildFFmpegCommand inputFile outputFile clip settings =
      pre ++ [Tok.str "-ss", Tok.num clip.startTime,
              Tok.str "-t", Tok.num (clip.endTime - clip.startTime)] ++ post) ∧
    (∃ chain, Tok.filter chain ∈ buildFFmpegCommand inputFile outputFile clip settings ∧
      Filter.crop (jsRound clip.cropArea.width) (jsRound clip.cropArea.height)
        (jsRound clip.cropArea.x) (jsRound clip.cropArea.y) ∈ chain) := by
  obtain ⟨fmt, q, f⟩ := settings
  cases fmt with
  | mp4 =>
      constructor
      · exact ⟨[Tok.str "-i", Tok.str inputFile],
          [Tok.str "-vf", Tok.filter [cropFilterOf clip.cropArea],
           Tok.str "-c:v", Tok.str "libx264",
           Tok.str "-preset", Tok.str "fast",
           Tok.str "-crf", Tok.num ((qualityToCRF q : ℤ) : ℚ),
           Tok.str "-c:a", Tok.str "aac",
           Tok.str "-b:a", Tok.str "128k",
           Tok.str outputFile], rfl⟩
      · refine ⟨[cropFilterOf clip.cropArea], ?_, ?_⟩
        · simp [buildFFmpegCommand]
        · simp [cropFilterOf]
  | gif =>
      constructor
      · exact ⟨[Tok.str "-i", Tok.str inputFile],
          [Tok.str "-vf", Tok.filter [cropFilterOf clip.cropArea, Filter.fps (jsOr f 15),
             Filter.scale 320 (-1) "lanczos", Filter.palettegen],
           Tok.str "-y", Tok.str "palette.png",
           Tok.str "-i", Tok.str "palette.png",
           Tok.str "-filter_complex", Tok.filter [cropFilterOf clip.cropArea,
             Filter.fps (jsOr f 15), Filter.scale 320 (-1) "lanczos", Filter.paletteuse],
           Tok.str "-loop", Tok.str "0",
           Tok.str outputFile], rfl⟩
      · refine ⟨[cropFilterOf clip.cropArea, Filter.fps (jsOr f 15),
          Filter.scale 320 (-1) "lanczos", Filter.palettegen], ?_, ?_⟩
        · simp [buildFFmpegCommand]
        · simp [cropFilterOf]

/-- The filter chain shared by both stages of the gif pipeline: crop,
frame-rate conversion, scale to width 320 with height -1 (preserve
aspect ratio) using lanczos resampling. -/
def gifBaseChain (clip : ClipSegment) (f : Option ℚ) : List Filter :=
  [cropFilterOf clip.cropArea, Filter.fps (jsOr f 15), Filter.scale 320 (-1) "lanczos"]

/-- C7: for gif output the builder produces the two-stage palette
pipeline: stage 1 (-vf chain+palettegen, written to palette.png)
generates the palette from the cropped, frame-rate-converted, scaled
stream, and stage 2 (-filter_complex with palette.png as the second
input) re-applies exactly the same chain and consumes the palette,
with -loop 0 (infinite looping); the chain scales to width 320,
height preserving aspect ratio, with lanczos flags, and the frame rate
defaults to 15 when not supplied (jsOr none 15 = 15). -/
theorem buildFFmpegCommand_gif_pipeline (inputFile outputFile : String)
    (clip : ClipSegment) (q : ℚ) (f : Option ℚ) :
    buildFFmpegCommand inputFile outputFile clip (ExportSettings.mk Format.gif q f) =
      [Tok.str "-i", Tok.str inputFile,
       Tok.str "-ss", Tok.num clip.startTime,
       Tok.str "-t", Tok.num (clip.endTime - clip.startTime),
       Tok.str "-vf", Tok.filter (gifBaseChain clip f ++ [Filter.palettegen]),
       Tok.str "-y", Tok.str "palette.png",
       Tok.str "-i", Tok.str "palette.png",
       Tok.str "-filter_complex", Tok.filter (gifBaseChain clip f ++ [Filter.paletteuse]),
       Tok.str "-loop", Tok.str "0",
       Tok.str outputFile] ∧
    gifBaseChain clip f =
      [cropFilterOf clip.cropArea, Filter.fps (jsOr f 15),
       Filter.scale 320 (-1) "lanczos"] ∧
    jsOr none 15 = 15 :=
  ⟨rfl, rfl, rfl⟩

end FastCut
